import Mathlib

/-!
Shallow embedding of `strawberry_django/fields/filter_types.py`.

The module declares strawberry input classes whose fields are all
`Optional[...]` with a default.  A strawberry input field can therefore hold
the sentinel `UNSET` (absent), `None` (an explicit null), or a value; we
model that state space with `FieldVal`.  Python strings are modelled as
lists of characters, so that the slice `prefix[:-2]` becomes a total
list operation, exactly as slicing is total in Python.
-/

namespace FilterTypes

/-- State of a strawberry input field of Python type `Optional[T]`:
the absent-value sentinel `UNSET`, the explicit `None`, or a value. -/
inductive FieldVal (α : Type) where
  | unset
  | null
  | val (a : α)
deriving DecidableEq, Repr

/-- Modelled from the spec: `filter_field(...)` comes from
`strawberry_django/fields/filter_order.py`, which is not part of this slice.
Per the spec, "each field is optional and defaults to an absent-value
sentinel", so a field declared as `= filter_field(description=...)`
defaults to the sentinel `UNSET`. -/
def filter_field {T : Type} : FieldVal T :=
  FieldVal.unset

/-- The sentinel `strawberry.UNSET`, used as an explicit default (`= UNSET`). -/
def UNSET {T : Type} : FieldVal T :=
  FieldVal.unset

/-- The explicit Python default `= None`. -/
def pyNone {T : Type} : FieldVal T :=
  FieldVal.null

/-- Embedding of `BaseFilterLookup(Generic[T])` (lines 29-35). -/
structure BaseFilterLookup (T : Type) where
  exact : FieldVal T := filter_field
  is_null : FieldVal Bool := filter_field
  in_list : FieldVal (List T) := filter_field
deriving DecidableEq, Repr

/-- Embedding of `RangeLookup(Generic[T])` (lines 38-41): the two bound
fields default to Python `None`, not to `UNSET`. -/
structure RangeLookup (T : Type) where
  start : FieldVal T := pyNone
  «end» : FieldVal T := pyNone
deriving DecidableEq, Repr

/-- A Django `Q(**kwargs)` predicate: a conjunction of keyword conditions.
`RangeLookup.filter` builds one with a single keyword argument. -/
structure Q (V : Type) where
  kwargs : List (List Char × V)
deriving DecidableEq, Repr

/-- Embedding of the Python slice `s[:-2]`: all characters of `s` but the
last two.  Total for every length, exactly as slicing is in Python. -/
def pySliceDropLast2 (s : List Char) : List Char :=
  s.take (s.length - 2)

/-- Embedding of `RangeLookup.filter` (lines 43-47).  `resolve_value` lives
in `strawberry_django/filters.py`, outside this slice, and is only passed
through, so it is taken as a parameter.  The queryset type is abstract. -/
def RangeLookup.filter {T V QS : Type} (resolve_value : FieldVal T → V)
    (self : RangeLookup T) (queryset : QS) (pfx : List Char) :
    QS × Q (List V) :=
  (queryset,
    Q.mk [(pySliceDropLast2 pfx, [resolve_value self.start, resolve_value self.«end»])])

/-- Embedding of `ComparisonFilterLookup(BaseFilterLookup[T])` (lines 50-60). -/
structure ComparisonFilterLookup (T : Type) extends BaseFilterLookup T where
  gt : FieldVal T := filter_field
  gte : FieldVal T := filter_field
  lt : FieldVal T := filter_field
  lte : FieldVal T := filter_field
  range : FieldVal (RangeLookup T) := filter_field
deriving DecidableEq, Repr

/-- Embedding of `FilterLookup(BaseFilterLookup[T])` (lines 63-91). -/
structure FilterLookup (T : Type) extends BaseFilterLookup T where
  i_exact : FieldVal T := filter_field
  contains : FieldVal T := filter_field
  i_contains : FieldVal T := filter_field
  starts_with : FieldVal T := filter_field
  i_starts_with : FieldVal T := filter_field
  ends_with : FieldVal T := filter_field
  i_ends_with : FieldVal T := filter_field
  regex : FieldVal T := filter_field
  i_regex : FieldVal T := filter_field
deriving DecidableEq, Repr

/-- Embedding of `DateFilterLookup(ComparisonFilterLookup[T])` (lines 94-103). -/
structure DateFilterLookup (T : Type) extends ComparisonFilterLookup T where
  year : FieldVal (ComparisonFilterLookup Int) := UNSET
  month : FieldVal (ComparisonFilterLookup Int) := UNSET
  day : FieldVal (ComparisonFilterLookup Int) := UNSET
  week_day : FieldVal (ComparisonFilterLookup Int) := UNSET
  iso_week_day : FieldVal (ComparisonFilterLookup Int) := UNSET
  week : FieldVal (ComparisonFilterLookup Int) := UNSET
  iso_year : FieldVal (ComparisonFilterLookup Int) := UNSET
  quarter : FieldVal (ComparisonFilterLookup Int) := UNSET
deriving DecidableEq, Repr

/-- Embedding of `TimeFilterLookup(ComparisonFilterLookup[T])` (lines 106-112). -/
structure TimeFilterLookup (T : Type) extends ComparisonFilterLookup T where
  hour : FieldVal (ComparisonFilterLookup Int) := UNSET
  minute : FieldVal (ComparisonFilterLookup Int) := UNSET
  second : FieldVal (ComparisonFilterLookup Int) := UNSET
  date : FieldVal (ComparisonFilterLookup Int) := UNSET
  time : FieldVal (ComparisonFilterLookup Int) := UNSET
deriving DecidableEq, Repr

/-- Embedding of `DatetimeFilterLookup(DateFilterLookup[T], TimeFilterLookup[T])`
(lines 115-117): multiple inheritance from the two shapes, declaring no
fields of its own (`pass`). -/
structure DatetimeFilterLookup (T : Type) extends DateFilterLookup T, TimeFilterLookup T
deriving DecidableEq, Repr

/-- Embedding of `GeometryFilterLookup(Generic[T])` (lines 140-166), the body
of the `else` branch of the gis import.  The geometry scalar is abstract. -/
structure GeometryFilterLookup (G : Type) where
  bbcontains : FieldVal G := UNSET
  bboverlaps : FieldVal G := UNSET
  contained : FieldVal G := UNSET
  contains : FieldVal G := UNSET
  contains_properly : FieldVal G := UNSET
  coveredby : FieldVal G := UNSET
  covers : FieldVal G := UNSET
  crosses : FieldVal G := UNSET
  disjoint : FieldVal G := UNSET
  equals : FieldVal G := UNSET
  exacts : FieldVal G := UNSET
  intersects : FieldVal G := UNSET
  isempty : FieldVal Bool := filter_field
  isvalid : FieldVal Bool := filter_field
  overlaps : FieldVal G := UNSET
  touches : FieldVal G := UNSET
  within : FieldVal G := UNSET
  left : FieldVal G := UNSET
  right : FieldVal G := UNSET
  overlaps_left : FieldVal G := UNSET
  overlaps_right : FieldVal G := UNSET
  overlaps_above : FieldVal G := UNSET
  overlaps_below : FieldVal G := UNSET
  strictly_above : FieldVal G := UNSET
  strictly_below : FieldVal G := UNSET
deriving DecidableEq, Repr

/-- The input classes ("lookup shapes") the module can declare.
`GeometryFilterLookup` is the conditionally defined one (lines 134-166). -/
inductive LookupShape where
  | BaseFilterLookup
  | RangeLookup
  | ComparisonFilterLookup
  | FilterLookup
  | DateFilterLookup
  | TimeFilterLookup
  | DatetimeFilterLookup
  | GeometryFilterLookup
deriving DecidableEq, Repr

/-- Input fields declared in each class body itself, in source order. -/
def ownFields : LookupShape → List String
  | .BaseFilterLookup => ["exact", "is_null", "in_list"]
  | .RangeLookup => ["start", "end"]
  | .ComparisonFilterLookup => ["gt", "gte", "lt", "lte", "range"]
  | .FilterLookup =>
      ["i_exact", "contains", "i_contains", "starts_with", "i_starts_with",
       "ends_with", "i_ends_with", "regex", "i_regex"]
  | .DateFilterLookup =>
      ["year", "month", "day", "week_day", "iso_week_day", "week", "iso_year",
       "quarter"]
  | .TimeFilterLookup => ["hour", "minute", "second", "date", "time"]
  | .DatetimeFilterLookup => []
  | .GeometryFilterLookup =>
      ["bbcontains", "bboverlaps", "contained", "contains", "contains_properly",
       "coveredby", "covers", "crosses", "disjoint", "equals", "exacts",
       "intersects", "isempty", "isvalid", "overlaps", "touches", "within",
       "left", "right", "overlaps_left", "overlaps_right", "overlaps_above",
       "overlaps_below", "strictly_above", "strictly_below"]

/-- Methods declared in each class body (besides the implicit dataclass
machinery): only `RangeLookup` defines one, the resolver `filter`. -/
def ownMethods : LookupShape → List String
  | .RangeLookup => ["filter"]
  | _ => []

/-- Proper ancestor classes of each class among the lookup shapes, in Python
method-resolution order (`Generic` and `object` omitted).  Read off the
class headers: `RangeLookup` and `GeometryFilterLookup` subclass only
`Generic[T]`; `DatetimeFilterLookup` subclasses both the date and the time
shape. -/
def ancestors : LookupShape → List LookupShape
  | .BaseFilterLookup => []
  | .RangeLookup => []
  | .ComparisonFilterLookup => [.BaseFilterLookup]
  | .FilterLookup => [.BaseFilterLookup]
  | .DateFilterLookup => [.ComparisonFilterLookup, .BaseFilterLookup]
  | .TimeFilterLookup => [.ComparisonFilterLookup, .BaseFilterLookup]
  | .DatetimeFilterLookup =>
      [.DateFilterLookup, .TimeFilterLookup, .ComparisonFilterLookup,
       .BaseFilterLookup]
  | .GeometryFilterLookup => []

/-- All input fields a class exposes: its own plus those of its ancestors. -/
def allFields (s : LookupShape) : List String :=
  ownFields s ++ (ancestors s).flatMap ownFields

/-- The scalar keys of `type_filter_map` (lines 120-131). -/
inductive ScalarType where
  | ID
  | bool
  | date
  | datetime
  | time
  | Decimal
  | float
  | int
  | str
  | UUID
deriving DecidableEq, Repr

/-- Embedding of `type_filter_map` (lines 120-131), in source order. -/
def type_filter_map : List (ScalarType × LookupShape) :=
  [(.ID, .BaseFilterLookup),
   (.bool, .BaseFilterLookup),
   (.date, .DateFilterLookup),
   (.datetime, .DatetimeFilterLookup),
   (.time, .TimeFilterLookup),
   (.Decimal, .ComparisonFilterLookup),
   (.float, .ComparisonFilterLookup),
   (.int, .ComparisonFilterLookup),
   (.str, .FilterLookup),
   (.UUID, .FilterLookup)]

/-- Outcome of `from django.contrib.gis.geos import GEOSGeometry` (line 135):
it succeeds, raises `ImproperlyConfigured` (gdal missing), or raises some
other exception the module does not catch. -/
inductive GeosImportResult where
  | ok
  | improperlyConfigured
  | otherError
deriving DecidableEq, Repr

/-- What the module defines after the conditional section. -/
structure ModuleState where
  geometryFilterLookupDefined : Bool
deriving DecidableEq, Repr

/-- Embedding of the `try/except ImproperlyConfigured/else` section
(lines 134-166): on success the `else` branch defines
`GeometryFilterLookup`; on `ImproperlyConfigured` the handler is `pass`,
so loading succeeds without it; any other exception propagates and module
loading fails (`none`). -/
def loadGeometrySection : GeosImportResult → Option ModuleState
  | .ok => some ⟨true⟩
  | .improperlyConfigured => some ⟨false⟩
  | .otherError => none

/-- Taking all but the last two entries of a list is the same as dropping
the last entry twice. -/
theorem take_length_sub_two_eq_dropLast_dropLast {α : Type} (s : List α) :
    s.take (s.length - 2) = s.dropLast.dropLast := by
  rw [List.dropLast_eq_take, List.dropLast_eq_take, List.length_take,
    List.take_take]
  congr 1
  omega

/-- C1: for every queryset, prefix and `RangeLookup` value, `RangeLookup.filter`
returns a pair whose second component is a single range condition keyed by the
prefix with its last two characters removed, whose value is the two-element
list `[resolve_value(start), resolve_value(end)]`. -/
theorem rangeLookup_filter_builds_single_range_condition
    (T V QS : Type) (resolve_value : FieldVal T → V) (self : RangeLookup T)
    (queryset : QS) (pfx : List Char) :
    (RangeLookup.filter resolve_value self queryset pfx).2 =
      Q.mk [(pfx.dropLast.dropLast,
             [resolve_value self.start, resolve_value self.«end»])] := by
  simp [RangeLookup.filter, pySliceDropLast2,
    take_length_sub_two_eq_dropLast_dropLast]

/-- C5: the first component of the pair returned by `RangeLookup.filter` is the
queryset it was passed, unchanged. -/
theorem rangeLookup_filter_returns_queryset_unchanged
    (T V QS : Type) (resolve_value : FieldVal T → V) (self : RangeLookup T)
    (queryset : QS) (pfx : List Char) :
    (RangeLookup.filter resolve_value self queryset pfx).1 = queryset :=
  rfl

/-- C8: `RangeLookup.filter` always produces exactly one condition whose bound
list has exactly two elements, each bound passed through `resolve_value`, even
when `start` or `end` holds the absent sentinel or `None` (the quantification
over `self` covers every such state), so the range condition never degenerates
to a one-sided comparison and is never skipped by this function. -/
theorem rangeLookup_filter_always_two_bounds
    (T V QS : Type) (resolve_value : FieldVal T → V) (self : RangeLookup T)
    (queryset : QS) (pfx : List Char) :
    (RangeLookup.filter resolve_value self queryset pfx).2.kwargs.length = 1 ∧
    (RangeLookup.filter resolve_value self queryset pfx).2.kwargs.map Prod.snd =
      [[resolve_value self.start, resolve_value self.«end»]] ∧
    [resolve_value self.start, resolve_value self.«end»].length = 2 :=
  ⟨rfl, rfl, rfl⟩

/-- C9: `RangeLookup.filter` is total in its prefix argument: removing the last
two characters always yields a list whose length is the prefix length minus
two, and for a prefix of length at most 2 the condition key is the empty
string. -/
theorem rangeLookup_filter_total_short_pfx
    (T V QS : Type) (resolve_value : FieldVal T → V) (self : RangeLookup T)
    (queryset : QS) (pfx : List Char) :
    (pySliceDropLast2 pfx).length = pfx.length - 2 ∧
    (pfx.length ≤ 2 →
      (RangeLookup.filter resolve_value self queryset pfx).2.kwargs.map
        Prod.fst = [[]]) := by
  constructor
  · simp [pySliceDropLast2]
  · intro h
    simp [RangeLookup.filter, pySliceDropLast2, Nat.sub_eq_zero_of_le h]

/-- Witness for C9 at the concrete two-character prefix `ab`. -/
theorem rangeLookup_filter_total_short_pfx_witness :
    (RangeLookup.filter (fun v => v) ({} : RangeLookup Nat) (0 : Nat)
      ['a', 'b']).2.kwargs.map Prod.fst = [[]] :=
  (rangeLookup_filter_total_short_pfx Nat (FieldVal Nat) Nat (fun v => v)
    {} 0 ['a', 'b']).2 (by decide)

/-- C2: `type_filter_map` assigns `BaseFilterLookup` to `ID` and `bool`,
`DateFilterLookup` to `date`, `DatetimeFilterLookup` to `datetime`,
`TimeFilterLookup` to `time`, `ComparisonFilterLookup` to `Decimal`, `float`
and `int`, `FilterLookup` to `str` and `UUID`, and contains no other entries
(ten entries in all, with pairwise distinct keys). -/
theorem type_filter_map_entries :
    type_filter_map.lookup ScalarType.ID = some LookupShape.BaseFilterLookup ∧
    type_filter_map.lookup ScalarType.bool = some LookupShape.BaseFilterLookup ∧
    type_filter_map.lookup ScalarType.date = some LookupShape.DateFilterLookup ∧
    type_filter_map.lookup ScalarType.datetime =
      some LookupShape.DatetimeFilterLookup ∧
    type_filter_map.lookup ScalarType.time = some LookupShape.TimeFilterLookup ∧
    type_filter_map.lookup ScalarType.Decimal =
      some LookupShape.ComparisonFilterLookup ∧
    type_filter_map.lookup ScalarType.float =
      some LookupShape.ComparisonFilterLookup ∧
    type_filter_map.lookup ScalarType.int =
      some LookupShape.ComparisonFilterLookup ∧
    type_filter_map.lookup ScalarType.str = some LookupShape.FilterLookup ∧
    type_filter_map.lookup ScalarType.UUID = some LookupShape.FilterLookup ∧
    type_filter_map.length = 10 ∧
    (type_filter_map.map Prod.fst).Nodup := by
  decide

/-- C3: `GeometryFilterLookup` is defined if and only if the gis import
succeeds; when the import raises `ImproperlyConfigured`, module loading still
succeeds and simply omits the geometry lookup; an uncaught exception would
fail the load. -/
theorem geometry_lookup_defined_iff_import_ok :
    loadGeometrySection GeosImportResult.ok = some ⟨true⟩ ∧
    loadGeometrySection GeosImportResult.improperlyConfigured = some ⟨false⟩ ∧
    loadGeometrySection GeosImportResult.otherError = none ∧
    (∀ r, loadGeometrySection r = some ⟨true⟩ ↔ r = GeosImportResult.ok) := by
  refine ⟨rfl, rfl, rfl, fun r => ?_⟩
  cases r <;> simp [loadGeometrySection]

/-- C6: `ComparisonFilterLookup` extends the base shape (`exact`, `is_null`,
`in_list`) with exactly `gt`, `gte`, `lt`, `lte` and `range`, and
`FilterLookup` extends it with exactly the nine string operators. -/
theorem comparison_and_filter_lookup_field_sets :
    ancestors LookupShape.ComparisonFilterLookup =
      [LookupShape.BaseFilterLookup] ∧
    ownFields LookupShape.ComparisonFilterLookup =
      ["gt", "gte", "lt", "lte", "range"] ∧
    allFields LookupShape.ComparisonFilterLookup =
      ["gt", "gte", "lt", "lte", "range"] ++ ["exact", "is_null", "in_list"] ∧
    ancestors LookupShape.FilterLookup = [LookupShape.BaseFilterLookup] ∧
    ownFields LookupShape.FilterLookup =
      ["i_exact", "contains", "i_contains", "starts_with", "i_starts_with",
       "ends_with", "i_ends_with", "regex", "i_regex"] ∧
    allFields LookupShape.FilterLookup =
      ["i_exact", "contains", "i_contains", "starts_with", "i_starts_with",
       "ends_with", "i_ends_with", "regex", "i_regex"] ++
        ["exact", "is_null", "in_list"] := by
  decide

/-- C7: `DatetimeFilterLookup` contains every field of `DateFilterLookup`
(`year`, `month`, `day`, `week_day`, `iso_week_day`, `week`, `iso_year`,
`quarter`) and of `TimeFilterLookup` (`hour`, `minute`, `second`, `date`,
`time`), plus all inherited comparison and base fields, and declares no
fields of its own. -/
theorem datetime_lookup_unions_date_and_time_fields :
    ownFields LookupShape.DatetimeFilterLookup = [] ∧
    ((allFields LookupShape.DateFilterLookup ++
        allFields LookupShape.TimeFilterLookup).all
      (fun f => (allFields LookupShape.DatetimeFilterLookup).contains f)) = true ∧
    allFields LookupShape.DatetimeFilterLookup =
      ["year", "month", "day", "week_day", "iso_week_day", "week", "iso_year",
       "quarter"] ++
      ["hour", "minute", "second", "date", "time"] ++
      ["gt", "gte", "lt", "lte", "range"] ++
      ["exact", "is_null", "in_list"] := by
  decide

/-- C10 counterexample: `GeometryFilterLookup` is a lookup shape of the module
distinct from `RangeLookup` that also does not inherit from
`BaseFilterLookup` (it subclasses only `Generic[T]`), so `RangeLookup` is not
the only such shape; the geometry shape is indeed defined when the gis import
succeeds. -/
theorem geometry_lookup_also_not_subclass_of_base :
    LookupShape.GeometryFilterLookup ≠ LookupShape.RangeLookup ∧
    LookupShape.BaseFilterLookup ∉
      ancestors LookupShape.GeometryFilterLookup ∧
    loadGeometrySection GeosImportResult.ok = some ⟨true⟩ := by
  decide

/-- C10 amended: `RangeLookup`, unlike the five scalar lookup shapes
`ComparisonFilterLookup`, `FilterLookup`, `DateFilterLookup`,
`TimeFilterLookup` and `DatetimeFilterLookup` (though like the conditionally
defined `GeometryFilterLookup`), does not inherit from `BaseFilterLookup`:
it has no ancestors, exposes only `start` and `end` and none of `exact`,
`is_null`, `in_list`, and its only method is the two-bound range resolver
`filter`. -/
theorem rangeLookup_standalone_shape :
    ancestors LookupShape.RangeLookup = [] ∧
    allFields LookupShape.RangeLookup = ["start", "end"] ∧
    (["exact", "is_null", "in_list"].all
      (fun f => !(allFields LookupShape.RangeLookup).contains f)) = true ∧
    ownMethods LookupShape.RangeLookup = ["filter"] ∧
    ([LookupShape.ComparisonFilterLookup, LookupShape.FilterLookup,
      LookupShape.DateFilterLookup, LookupShape.TimeFilterLookup,
      LookupShape.DatetimeFilterLookup].all
      (fun s => (ancestors s).contains LookupShape.BaseFilterLookup)) = true := by
  decide

/-- The `BaseFilterLookup` value with every field explicitly absent. -/
def BaseFilterLookup.allUnset {T : Type} : BaseFilterLookup T :=
  { exact := FieldVal.unset, is_null := FieldVal.unset,
    in_list := FieldVal.unset }

/-- The `ComparisonFilterLookup` value with every field explicitly absent. -/
def ComparisonFilterLookup.allUnset {T : Type} : ComparisonFilterLookup T :=
  { exact := FieldVal.unset, is_null := FieldVal.unset,
    in_list := FieldVal.unset, gt := FieldVal.unset, gte := FieldVal.unset,
    lt := FieldVal.unset, lte := FieldVal.unset, range := FieldVal.unset }

/-- The `FilterLookup` value with every field explicitly absent. -/
def FilterLookup.allUnset {T : Type} : FilterLookup T :=
  { exact := FieldVal.unset, is_null := FieldVal.unset,
    in_list := FieldVal.unset, i_exact := FieldVal.unset,
    contains := FieldVal.unset, i_contains := FieldVal.unset,
    starts_with := FieldVal.unset, i_starts_with := FieldVal.unset,
    ends_with := FieldVal.unset, i_ends_with := FieldVal.unset,
    regex := FieldVal.unset, i_regex := FieldVal.unset }

/-- The `DateFilterLookup` value with every field explicitly absent. -/
def DateFilterLookup.allUnset {T : Type} : DateFilterLookup T :=
  { exact := FieldVal.unset, is_null := FieldVal.unset,
    in_list := FieldVal.unset, gt := FieldVal.unset, gte := FieldVal.unset,
    lt := FieldVal.unset, lte := FieldVal.unset, range := FieldVal.unset,
    year := FieldVal.unset, month := FieldVal.unset, day := FieldVal.unset,
    week_day := FieldVal.unset, iso_week_day := FieldVal.unset,
    week := FieldVal.unset, iso_year := FieldVal.unset,
    quarter := FieldVal.unset }

/-- The `TimeFilterLookup` value with every field explicitly absent. -/
def TimeFilterLookup.allUnset {T : Type} : TimeFilterLookup T :=
  { exact := FieldVal.unset, is_null := FieldVal.unset,
    in_list := FieldVal.unset, gt := FieldVal.unset, gte := FieldVal.unset,
    lt := FieldVal.unset, lte := FieldVal.unset, range := FieldVal.unset,
    hour := FieldVal.unset, minute := FieldVal.unset,
    second := FieldVal.unset, date := FieldVal.unset, time := FieldVal.unset }

/-- The `DatetimeFilterLookup` value with every field explicitly absent. -/
def DatetimeFilterLookup.allUnset {T : Type} : DatetimeFilterLookup T :=
  { exact := FieldVal.unset, is_null := FieldVal.unset,
    in_list := FieldVal.unset, gt := FieldVal.unset, gte := FieldVal.unset,
    lt := FieldVal.unset, lte := FieldVal.unset, range := FieldVal.unset,
    year := FieldVal.unset, month := FieldVal.unset, day := FieldVal.unset,
    week_day := FieldVal.unset, iso_week_day := FieldVal.unset,
    week := FieldVal.unset, iso_year := FieldVal.unset,
    quarter := FieldVal.unset, hour := FieldVal.unset,
    minute := FieldVal.unset, second := FieldVal.unset,
    date := FieldVal.unset, time := FieldVal.unset }

/-- The `GeometryFilterLookup` value with every field explicitly absent. -/
def GeometryFilterLookup.allUnset {G : Type} : GeometryFilterLookup G :=
  { bbcontains := FieldVal.unset, bboverlaps := FieldVal.unset,
    contained := FieldVal.unset, contains := FieldVal.unset,
    contains_properly := FieldVal.unset, coveredby := FieldVal.unset,
    covers := FieldVal.unset, crosses := FieldVal.unset,
    disjoint := FieldVal.unset, equals := FieldVal.unset,
    exacts := FieldVal.unset, intersects := FieldVal.unset,
    isempty := FieldVal.unset, isvalid := FieldVal.unset,
    overlaps := FieldVal.unset, touches := FieldVal.unset,
    within := FieldVal.unset, left := FieldVal.unset,
    right := FieldVal.unset, overlaps_left := FieldVal.unset,
    overlaps_right := FieldVal.unset, overlaps_above := FieldVal.unset,
    overlaps_below := FieldVal.unset, strictly_above := FieldVal.unset,
    strictly_below := FieldVal.unset }

/-- C4 counterexample: a freshly constructed `RangeLookup` with no arguments
does not have every field equal to the absent sentinel `UNSET`: its `start`
and `end` fields default to `None` (explicit null), which differs from
`UNSET`. -/
theorem rangeLookup_default_bounds_null_not_unset :
    ({} : RangeLookup Nat).start = FieldVal.null ∧
    ({} : RangeLookup Nat).«end» = FieldVal.null ∧
    ({} : RangeLookup Nat).start ≠ FieldVal.unset ∧
    ({} : RangeLookup Nat).«end» ≠ FieldVal.unset := by
  decide

/-- C4 amended: in every lookup input shape except `RangeLookup`, every field
is optional and defaults to the absent sentinel `UNSET`, so a freshly
constructed value with no arguments has every field absent; in `RangeLookup`
the two fields `start` and `end` instead default to `None`. -/
theorem lookup_defaults_all_absent_except_rangeLookup (T G : Type) :
    ({} : BaseFilterLookup T) = BaseFilterLookup.allUnset ∧
    ({} : ComparisonFilterLookup T) = ComparisonFilterLookup.allUnset ∧
    ({} : FilterLookup T) = FilterLookup.allUnset ∧
    ({} : DateFilterLookup T) = DateFilterLookup.allUnset ∧
    ({} : TimeFilterLookup T) = TimeFilterLookup.allUnset ∧
    ({} : DatetimeFilterLookup T) = DatetimeFilterLookup.allUnset ∧
    ({} : GeometryFilterLookup G) = GeometryFilterLookup.allUnset ∧
    ({} : RangeLookup T) =
      { start := FieldVal.null, «end» := FieldVal.null } :=
  ⟨rfl, rfl, rfl, rfl, rfl, rfl, rfl, rfl⟩

end FilterTypes
